import Mathlib

/-!
Verification of the outbound-call media relay (src/outbound.js).

The definitions below are a shallow embedding of the code: the per-call
session state of the `/outbound-media-stream` WebSocket handler, the two
message handlers (Twilio side and ElevenLabs side), the ElevenLabs setup
path, and the `/process-speech` request/response path.  JavaScript
truthiness and Node's base64 decode/re-encode (`Buffer.from(p, "base64")
.toString("base64")`) are modelled explicitly.
-/

namespace Outbound

/-- A JavaScript primitive value as far as truthiness is concerned
(ping event ids may be numbers or strings). -/
inductive JsVal
  | str (s : String)
  | num (n : Int)
  deriving DecidableEq

/-- JavaScript truthiness for `JsVal`: `0` and `""` are falsy. -/
def JsVal.truthy : JsVal → Bool
  | .str s => !(s == "")
  | .num n => !(n == 0)

/-- Truthiness of an optional string (`undefined`/`null` and `""` are falsy). -/
def jsTruthyOptStr : Option String → Bool
  | none => false
  | some s => !(s == "")

/-- JavaScript `a || d` for an optional string `a` and default `d`. -/
def jsOrStr (o : Option String) (d : String) : String :=
  match o with
  | some s => if s == "" then d else s
  | none => d

/-! ### Base64 (Node `Buffer.from(·, "base64").toString("base64")`) -/

/-- The standard base64 alphabet. -/
def b64Alphabet : List Char :=
  ['A', 'B', 'C', 'D', 'E', 'F', 'G', 'H', 'I', 'J', 'K', 'L', 'M',
   'N', 'O', 'P', 'Q', 'R', 'S', 'T', 'U', 'V', 'W', 'X', 'Y', 'Z',
   'a', 'b', 'c', 'd', 'e', 'f', 'g', 'h', 'i', 'j', 'k', 'l', 'm',
   'n', 'o', 'p', 'q', 'r', 's', 't', 'u', 'v', 'w', 'x', 'y', 'z',
   '0', '1', '2', '3', '4', '5', '6', '7', '8', '9', '+', '/']

/-- The base64 digit for a six-bit value. -/
def b64Char (n : Nat) : Char := b64Alphabet.getD n '='

def b64IndexAux : List Char → Char → Nat → Option Nat
  | [], _, _ => none
  | a :: rest, c, i => if a == c then some i else b64IndexAux rest c (i + 1)

/-- The six-bit value of a base64 digit; `none` for padding and any
character outside the alphabet (Node's lenient decoder skips those). -/
def b64CharVal (c : Char) : Option Nat := b64IndexAux b64Alphabet c 0

/-- Base64-encode a byte list (standard padded encoding, as produced by
Node's `Buffer.toString("base64")`). -/
def b64EncodeBytes : List Nat → List Char
  | [] => []
  | [b1] => [b64Char (b1 / 4), b64Char (b1 % 4 * 16), '=', '=']
  | [b1, b2] => [b64Char (b1 / 4), b64Char (b1 % 4 * 16 + b2 / 16),
                 b64Char (b2 % 16 * 4), '=']
  | b1 :: b2 :: b3 :: rest =>
      b64Char (b1 / 4) :: b64Char (b1 % 4 * 16 + b2 / 16) ::
      b64Char (b2 % 16 * 4 + b3 / 64) :: b64Char (b3 % 64) :: b64EncodeBytes rest

/-- Reassemble bytes from a list of six-bit values; trailing bits that do
not fill a byte are discarded, as in Node's decoder. -/
def b64SixbitsToBytes : List Nat → List Nat
  | s1 :: s2 :: s3 :: s4 :: rest =>
      (s1 * 4 + s2 / 16) :: (s2 % 16 * 16 + s3 / 4) :: (s3 % 4 * 64 + s4) ::
      b64SixbitsToBytes rest
  | [s1, s2] => [s1 * 4 + s2 / 16]
  | [s1, s2, s3] => [s1 * 4 + s2 / 16, s2 % 16 * 16 + s3 / 4]
  | _ => []

def b64Encode (bs : List Nat) : String := String.mk (b64EncodeBytes bs)

/-- Node's lenient base64 decode: non-alphabet characters (including the
padding `=`) are skipped, then six-bit groups are packed into bytes. -/
def b64Decode (s : String) : List Nat :=
  b64SixbitsToBytes (s.toList.filterMap b64CharVal)

/-- `Buffer.from(p, "base64").toString("base64")` — the transformation the
relay applies to every inbound Twilio media payload (src/outbound.js
lines 436-439). -/
def forwardMediaPayload (p : String) : String := b64Encode (b64Decode p)

/-! ### Per-call session state (`/outbound-media-stream` handler) -/

/-- `customParameters` carried by a Twilio `start` frame (fields read by the
code: `prompt`, `first_message`). -/
structure CustomParams where
  prompt : Option String
  first_message : Option String
  deriving DecidableEq

/-- The agent section of the `conversation_initiation_client_data`
handshake. -/
structure InitConfigAgent where
  prompt : String
  first_message : String
  deriving DecidableEq

def defaultPrompt : String := "you are a gary from the phone store"

def defaultFirstMessage : String := "hey there! how can I help you today?"

/-- The handshake contents built in the ElevenLabs `open` handler
(src/outbound.js lines 293-307): per-call parameters with `||` defaults. -/
def buildInitConfig (cp : Option CustomParams) : InitConfigAgent :=
  { prompt := jsOrStr (cp.bind (fun c => c.prompt)) defaultPrompt
    first_message := jsOrStr (cp.bind (fun c => c.first_message)) defaultFirstMessage }

/-- `readyState` of a `ws` WebSocket. -/
inductive WsReady
  | connecting
  | opened
  | closing
  | closed
  deriving DecidableEq

/-- The per-call mutable variables of the media-stream handler:
`streamSid`, `callSid`, `customParameters`, `elevenLabsWs` (with its ready
state; `none` models the variable still being `null`); `elevenCloseCount`
counts invocations of `elevenLabsWs.close()` and `twilioOpen` tracks the
Twilio WebSocket. -/
structure SessionState where
  streamSid : Option String
  callSid : Option String
  customParameters : Option CustomParams
  elevenLabs : Option WsReady
  elevenCloseCount : Nat
  twilioOpen : Bool
  deriving DecidableEq

def initialState : SessionState :=
  { streamSid := none, callSid := none, customParameters := none,
    elevenLabs := none, elevenCloseCount := 0, twilioOpen := true }

/-- Fields of a Twilio `start` frame read by the code. -/
structure StartData where
  streamSid : String
  callSid : String
  customParameters : Option CustomParams
  deriving DecidableEq

/-- Inbound Twilio frames, dispatched on `msg.event`. -/
inductive TwilioMsg
  | start (d : StartData)
  | media (payload : String)
  | stop
  | other (event : String)
  deriving DecidableEq

/-- `ping_event` object of an ElevenLabs ping message. -/
structure PingEvent where
  event_id : Option JsVal
  deriving DecidableEq

/-- `audio` object of an ElevenLabs audio message. -/
structure AudioPayload where
  chunk : Option String
  deriving DecidableEq

/-- `audio_event` object of an ElevenLabs audio message. -/
structure AudioEventPayload where
  audio_base_64 : Option String
  deriving DecidableEq

/-- Inbound ElevenLabs messages, dispatched on `message.type`. -/
inductive ElevenMsg
  | initiationMetadata
  | audio (a : Option AudioPayload) (ae : Option AudioEventPayload)
  | interruption
  | ping (pe : Option PingEvent)
  | agentResponse (t : Option String)
  | userTranscript (t : Option String)
  | other (ty : String)
  deriving DecidableEq

/-- Outbound frames to Twilio. -/
inductive TwilioFrame
  | media (streamSid : String) (payload : String)
  | clear (streamSid : String)
  deriving DecidableEq

/-- Outbound frames to ElevenLabs. -/
inductive ElevenFrame
  | initConfig (agent : InitConfigAgent)
  | userAudioChunk (payload : String)
  | pong (event_id : JsVal)
  deriving DecidableEq

/-- Externally observable side effects of the handlers. -/
inductive Effect
  | toTwilio (f : TwilioFrame)
  | toEleven (f : ElevenFrame)
  | logSetupError
  deriving DecidableEq

/-- `if (elevenLabsWs?.readyState === WebSocket.OPEN) elevenLabsWs.close()`
— the guarded close used by the `stop` case and the Twilio `close`
handler; `close()` moves the ready state to CLOSING. -/
def closeElevenIfOpen (s : SessionState) : SessionState :=
  if s.elevenLabs = some WsReady.opened then
    { s with elevenLabs := some WsReady.closing,
             elevenCloseCount := s.elevenCloseCount + 1 }
  else s

/-- The Twilio message handler (src/outbound.js lines 415-458). -/
def handleTwilioMsg (m : TwilioMsg) (s : SessionState) : SessionState × List Effect :=
  match m with
  | .start d =>
      ({ s with streamSid := some d.streamSid, callSid := some d.callSid,
                customParameters := d.customParameters }, [])
  | .media payload =>
      if s.elevenLabs = some WsReady.opened then
        (s, [.toEleven (.userAudioChunk (forwardMediaPayload payload))])
      else (s, [])
  | .stop => (closeElevenIfOpen s, [])
  | .other _ => (s, [])

/-- `message.audio?.chunk || message.audio_event?.audio_base_64` as
structured in the audio case (lines 329-347): the `audio.chunk` branch is
tried first, then `audio_event.audio_base_64`, each under truthiness. -/
def audioChunkOf (a : Option AudioPayload) (ae : Option AudioEventPayload) :
    Option String :=
  if jsTruthyOptStr (a.bind (fun x => x.chunk)) then a.bind (fun x => x.chunk)
  else if jsTruthyOptStr (ae.bind (fun x => x.audio_base_64)) then
    ae.bind (fun x => x.audio_base_64)
  else none

/-- The ElevenLabs message handler (src/outbound.js lines 318-397). -/
def handleElevenMsg (m : ElevenMsg) (s : SessionState) : SessionState × List Effect :=
  match m with
  | .initiationMetadata => (s, [])
  | .audio a ae =>
      match s.streamSid with
      | some sid =>
          if sid == "" then (s, [])
          else
            match audioChunkOf a ae with
            | some p => (s, [.toTwilio (.media sid p)])
            | none => (s, [])
      | none => (s, [])
  | .interruption =>
      match s.streamSid with
      | some sid => if sid == "" then (s, []) else (s, [.toTwilio (.clear sid)])
      | none => (s, [])
  | .ping pe =>
      match pe.bind (fun p => p.event_id) with
      | some v => if v.truthy then (s, [.toEleven (.pong v)]) else (s, [])
      | none => (s, [])
  | .agentResponse _ => (s, [])
  | .userTranscript _ => (s, [])
  | .other _ => (s, [])

/-- The events a session can observe: the outcome of `setupElevenLabs`'s
signed-URL fetch (on failure the `catch` only logs), the ElevenLabs
socket's `open`/`error`/`close` events, its messages, Twilio messages, and
the Twilio socket's `close`. -/
inductive SessionEvent
  | setupResult (ok : Bool)
  | aiOpen
  | aiMsg (m : ElevenMsg)
  | aiError
  | aiClose
  | twilioMsg (m : TwilioMsg)
  | twilioClose
  deriving DecidableEq

/-- One step of the session: dispatch an event to the corresponding handler
in src/outbound.js. -/
def step (s : SessionState) (e : SessionEvent) : SessionState × List Effect :=
  match e with
  | .setupResult ok =>
      if ok then ({ s with elevenLabs := some WsReady.connecting }, [])
      else (s, [.logSetupError])
  | .aiOpen =>
      if s.elevenLabs = some WsReady.connecting then
        ({ s with elevenLabs := some WsReady.opened },
         [.toEleven (.initConfig (buildInitConfig s.customParameters))])
      else (s, [])
  | .aiMsg m => handleElevenMsg m s
  | .aiError => (s, [])
  | .aiClose =>
      match s.elevenLabs with
      | some _ => ({ s with elevenLabs := some WsReady.closed }, [])
      | none => (s, [])
  | .twilioMsg m => handleTwilioMsg m s
  | .twilioClose => (closeElevenIfOpen { s with twilioOpen := false }, [])

/-- Run a session over a list of events, accumulating effects. -/
def run (s : SessionState) : List SessionEvent → SessionState × List Effect
  | [] => (s, [])
  | e :: rest =>
      let p := step s e
      let q := run p.1 rest
      (q.1, p.2 ++ q.2)

def isSetupEvent : SessionEvent → Bool
  | .setupResult _ => true
  | _ => false

def isAiMsgEvent : SessionEvent → Bool
  | .aiMsg _ => true
  | _ => false

def isTwilioCloseEvent : SessionEvent → Bool
  | .twilioClose => true
  | _ => false

def countSetups (tr : List SessionEvent) : Nat := (tr.filter isSetupEvent).length

def isToEleven : Effect → Bool
  | .toEleven _ => true
  | _ => false

def isSetupErrorLog : Effect → Bool
  | .logSetupError => true
  | _ => false

/-- Invariant: either `close()` has never been invoked, or it has been
invoked exactly once and the socket is in CLOSING or CLOSED state (so the
`readyState === OPEN` guard can never let a second `close()` through). -/
def CloseInv (s : SessionState) : Prop :=
  s.elevenCloseCount = 0 ∨
    (s.elevenCloseCount = 1 ∧
      (s.elevenLabs = some WsReady.closing ∨ s.elevenLabs = some WsReady.closed))

/-- Before any setup attempt resolves, the socket variable is `null` and
`close()` has never been invoked. -/
def PreInv (s : SessionState) : Prop :=
  s.elevenLabs = none ∧ s.elevenCloseCount = 0

/-! ### The request/response speech path (`/process-speech`) -/

/-- The argument of the `setTimeout` guarding `conversationPromise`
(src/outbound.js line 240). -/
def conversationTimeoutMs : Nat := 10000

/-- The possible settlement outcomes of `conversationPromise`: the first
audio response arrives, the socket errors, or the timeout fires. -/
inductive SpeechOutcome
  | firstAudio (chunk : String)
  | socketFailure
  | timeoutFired
  deriving DecidableEq

/-- What can happen on the `/process-speech` WebSocket before the timer
fires. -/
inductive WsHappening
  | audioMessage (a : Option AudioPayload) (ae : Option AudioEventPayload)
  | otherMessage
  | socketError
  deriving DecidableEq

/-- Whether a happening settles `conversationPromise`, per the `message`
and `error` handlers: an `audio` message settles only when
`message.audio?.chunk || message.audio_event?.audio_base_64` is truthy. -/
def settlesWith : WsHappening → Option SpeechOutcome
  | .audioMessage a ae =>
      match audioChunkOf a ae with
      | some c => some (.firstAudio c)
      | none => none
  | .otherMessage => none
  | .socketError => some .socketFailure

/-- The outcome of the promise over a chronological timeline of
happenings, each with its arrival time in milliseconds: the first settling
happening strictly before the deadline wins; otherwise the timeout fires. -/
def settleBefore (deadline : Nat) : List (Nat × WsHappening) → SpeechOutcome
  | [] => .timeoutFired
  | (t, hap) :: rest =>
      if t < deadline then
        match settlesWith hap with
        | some o => o
        | none => settleBefore deadline rest
      else .timeoutFired

/-- Observable result of the `/process-speech` handler: whether the AI
socket's `close()` was invoked, and which TwiML is returned (`Play` with
the audio, or the spoken error followed by `Hangup`). -/
structure SpeechPathResult where
  aiSocketClosed : Bool
  saidError : Bool
  hangup : Bool
  playedAudio : Option String
  deriving DecidableEq

/-- Resolution of the handler per outcome: first audio closes the socket
and plays the chunk; the timeout callback closes the socket and rejects;
every rejection lands in the `catch` that returns the
`Say` + `Hangup` TwiML. -/
def processSpeechOutcome : SpeechOutcome → SpeechPathResult
  | .firstAudio c =>
      { aiSocketClosed := true, saidError := false, hangup := false,
        playedAudio := some c }
  | .socketFailure =>
      { aiSocketClosed := false, saidError := true, hangup := true,
        playedAudio := none }
  | .timeoutFired =>
      { aiSocketClosed := true, saidError := true, hangup := true,
        playedAudio := none }

/-- The `/process-speech` handler over a timeline of socket happenings. -/
def processSpeech (timeline : List (Nat × WsHappening)) : SpeechPathResult :=
  processSpeechOutcome (settleBefore conversationTimeoutMs timeline)

/-! ### Concrete scenario data -/

/-- The parameters of spec Scenario 1. -/
def scenarioParams : CustomParams :=
  { prompt := some "p", first_message := some "hi" }

/-- The `start` frame of spec Scenario 1. -/
def scenarioStart : StartData :=
  { streamSid := "MZ1", callSid := "CA1", customParameters := some scenarioParams }

/-- A session whose ElevenLabs socket is open. -/
def aiOpenState : SessionState :=
  { initialState with elevenLabs := some WsReady.opened }

/-! ### Base64 lemmas -/

theorem b64CharVal_b64Char : ∀ n < 64, b64CharVal (b64Char n) = some n := by decide

theorem b64CharVal_pad : b64CharVal '=' = none := by decide

theorem b64_roundtrip (bs : List Nat) (h : ∀ b ∈ bs, b < 256) :
    b64SixbitsToBytes (List.filterMap b64CharVal (b64EncodeBytes bs)) = bs := by
  induction bs using b64EncodeBytes.induct with
  | case1 => simp [b64EncodeBytes, b64SixbitsToBytes]
  | case2 b1 =>
      have h1 : b1 < 256 := h b1 (by simp)
      simp only [b64EncodeBytes, List.filterMap_cons, b64CharVal_pad,
        b64CharVal_b64Char (b1 / 4) (by omega),
        b64CharVal_b64Char (b1 % 4 * 16) (by omega)]
      simp only [b64SixbitsToBytes, List.cons.injEq, and_true]
      omega
  | case3 b1 b2 =>
      have h1 : b1 < 256 := h b1 (by simp)
      have h2 : b2 < 256 := h b2 (by simp)
      simp only [b64EncodeBytes, List.filterMap_cons, b64CharVal_pad,
        b64CharVal_b64Char (b1 / 4) (by omega),
        b64CharVal_b64Char (b1 % 4 * 16 + b2 / 16) (by omega),
        b64CharVal_b64Char (b2 % 16 * 4) (by omega)]
      simp only [b64SixbitsToBytes, List.cons.injEq, and_true]
      constructor
      · omega
      · omega
  | case4 b1 b2 b3 rest ih =>
      have h1 : b1 < 256 := h b1 (by simp)
      have h2 : b2 < 256 := h b2 (by simp)
      have h3 : b3 < 256 := h b3 (by simp)
      have hrest : ∀ b ∈ rest, b < 256 := fun b hb => h b (by simp [hb])
      simp only [b64EncodeBytes, List.filterMap_cons,
        b64CharVal_b64Char (b1 / 4) (by omega),
        b64CharVal_b64Char (b1 % 4 * 16 + b2 / 16) (by omega),
        b64CharVal_b64Char (b2 % 16 * 4 + b3 / 64) (by omega),
        b64CharVal_b64Char (b3 % 64) (by omega)]
      simp only [b64SixbitsToBytes, List.cons.injEq]
      refine ⟨by omega, by omega, by omega, ih hrest⟩

/-- On a canonical (padded) base64 string — the encoding of some byte
sequence — the forwarding transformation is the identity. -/
theorem forwardMediaPayload_canonical (bs : List Nat) (h : ∀ b ∈ bs, b < 256) :
    forwardMediaPayload (b64Encode bs) = b64Encode bs := by
  unfold forwardMediaPayload b64Decode b64Encode
  have : (String.mk (b64EncodeBytes bs)).toList = b64EncodeBytes bs := rfl
  rw [this, b64_roundtrip bs h]

/-! ### Invariant lemmas -/

/-- If the ElevenLabs socket was never created (`elevenLabsWs` still
`null`) and no further setup attempt or ElevenLabs message occurs, then it
stays that way: nothing is ever sent to the AI side, no setup error is
logged, `close()` is never invoked, and the Twilio socket is open exactly
when the remote side has not closed it. -/
theorem run_noSocket_inv (tr : List SessionEvent) (s : SessionState)
    (h1 : tr.all (fun e => !isSetupEvent e) = true)
    (h2 : tr.all (fun e => !isAiMsgEvent e) = true)
    (hE : s.elevenLabs = none) :
    (run s tr).1.elevenLabs = none ∧
    (run s tr).1.elevenCloseCount = s.elevenCloseCount ∧
    (run s tr).2.filter isToEleven = [] ∧
    (run s tr).2.filter isSetupErrorLog = [] ∧
    (run s tr).1.twilioOpen = (s.twilioOpen && !(tr.any isTwilioCloseEvent)) := by
  induction tr generalizing s with
  | nil => simp [run, hE]
  | cons e rest ih =>
      simp only [List.all_cons, Bool.and_eq_true, List.any_cons] at h1 h2 ⊢
      obtain ⟨he1, h1⟩ := h1
      obtain ⟨he2, h2⟩ := h2
      cases e with
      | setupResult ok => simp [isSetupEvent] at he1
      | aiMsg m => simp [isAiMsgEvent] at he2
      | aiOpen =>
          have := ih s h1 h2 hE
          simp only [run, step]
          rw [if_neg (by rw [hE]; simp)]
          simpa [isTwilioCloseEvent] using this
      | aiError =>
          have := ih s h1 h2 hE
          simp only [run, step]
          simpa [isTwilioCloseEvent] using this
      | aiClose =>
          have := ih s h1 h2 hE
          simp only [run, step, hE]
          simpa [isTwilioCloseEvent] using this
      | twilioClose =>
          have hc : closeElevenIfOpen { s with twilioOpen := false } =
              { s with twilioOpen := false } := by
            unfold closeElevenIfOpen
            rw [if_neg (by rw [show ({ s with twilioOpen := false } : SessionState).elevenLabs
              = s.elevenLabs from rfl, hE]; simp)]
          have := ih { s with twilioOpen := false } h1 h2 hE
          simp only [run, step, hc]
          simpa [isTwilioCloseEvent] using this
      | twilioMsg m =>
          cases m with
          | start d =>
              have := ih { s with streamSid := some d.streamSid,
                                  callSid := some d.callSid,
                                  customParameters := d.customParameters } h1 h2 hE
              simp only [run, step, handleTwilioMsg]
              simpa [isTwilioCloseEvent] using this
          | media p =>
              have := ih s h1 h2 hE
              simp only [run, step, handleTwilioMsg]
              rw [if_neg (by rw [hE]; simp)]
              simpa [isTwilioCloseEvent] using this
          | stop =>
              have hc : closeElevenIfOpen s = s := by
                unfold closeElevenIfOpen
                rw [if_neg (by rw [hE]; simp)]
              have := ih s h1 h2 hE
              simp only [run, step, handleTwilioMsg, hc]
              simpa [isTwilioCloseEvent] using this
          | other ev =>
              have := ih s h1 h2 hE
              simp only [run, step, handleTwilioMsg]
              simpa [isTwilioCloseEvent] using this

/-- The ElevenLabs message handler never mutates the session variables:
its first component is always the input state. -/
theorem handleElevenMsg_fst (m : ElevenMsg) (s : SessionState) :
    (handleElevenMsg m s).1 = s := by
  cases m with
  | audio a ae =>
      unfold handleElevenMsg
      cases hs : s.streamSid with
      | none => rfl
      | some sid =>
          by_cases hsid : sid == ""
          · simp [hsid]
          · cases hc : audioChunkOf a ae <;> simp [hsid, hc]
  | interruption =>
      unfold handleElevenMsg
      cases hs : s.streamSid with
      | none => rfl
      | some sid => by_cases hsid : sid == "" <;> simp [hsid]
  | ping pe =>
      simp only [handleElevenMsg]
      cases hp : pe.bind (fun p => p.event_id) with
      | none => rfl
      | some v => by_cases hv : v.truthy <;> simp [hv]
  | initiationMetadata => rfl
  | agentResponse t => rfl
  | userTranscript t => rfl
  | other ty => rfl

theorem closeInv_closeElevenIfOpen (s : SessionState) (h : CloseInv s) :
    CloseInv (closeElevenIfOpen s) := by
  unfold closeElevenIfOpen
  by_cases hc : s.elevenLabs = some WsReady.opened
  · rcases h with h0 | ⟨h1, h2 | h2⟩
    · rw [if_pos hc]
      exact Or.inr ⟨by simp [h0], Or.inl rfl⟩
    · rw [hc] at h2; cases h2
    · rw [hc] at h2; cases h2
  · rw [if_neg hc]; exact h

theorem closeInv_step (s : SessionState) (e : SessionEvent)
    (h : CloseInv s) (he : isSetupEvent e = false) : CloseInv (step s e).1 := by
  cases e with
  | setupResult ok => simp [isSetupEvent] at he
  | aiOpen =>
      unfold step
      by_cases hc : s.elevenLabs = some WsReady.connecting
      · rw [if_pos hc]
        rcases h with h0 | ⟨h1, h2 | h2⟩
        · exact Or.inl h0
        · rw [hc] at h2; cases h2
        · rw [hc] at h2; cases h2
      · rw [if_neg hc]; exact h
  | aiMsg m => rw [show (step s (SessionEvent.aiMsg m)).1 = (handleElevenMsg m s).1 from rfl,
      handleElevenMsg_fst]; exact h
  | aiError => exact h
  | aiClose =>
      unfold step
      cases hs : s.elevenLabs with
      | none => simpa using h
      | some r =>
          rcases h with h0 | ⟨h1, h2⟩
          · exact Or.inl h0
          · exact Or.inr ⟨h1, Or.inr rfl⟩
  | twilioMsg m =>
      cases m with
      | start d =>
          rcases h with h0 | ⟨h1, h2⟩
          · exact Or.inl h0
          · exact Or.inr ⟨h1, h2⟩
      | media p =>
          simp only [step, handleTwilioMsg]
          by_cases hc : s.elevenLabs = some WsReady.opened
          · rw [if_pos hc]; exact h
          · rw [if_neg hc]; exact h
      | stop => exact closeInv_closeElevenIfOpen s h
      | other ev => exact h
  | twilioClose =>
      have : CloseInv ({ s with twilioOpen := false } : SessionState) := by
        rcases h with h0 | ⟨h1, h2⟩
        · exact Or.inl h0
        · exact Or.inr ⟨h1, h2⟩
      exact closeInv_closeElevenIfOpen _ this

theorem preInv_step (s : SessionState) (e : SessionEvent)
    (h : PreInv s) (he : isSetupEvent e = false) : PreInv (step s e).1 := by
  obtain ⟨hE, hC⟩ := h
  cases e with
  | setupResult ok => simp [isSetupEvent] at he
  | aiOpen =>
      simp only [step]
      rw [if_neg (by rw [hE]; simp)]
      exact ⟨hE, hC⟩
  | aiMsg m => rw [show (step s (SessionEvent.aiMsg m)).1 = (handleElevenMsg m s).1 from rfl,
      handleElevenMsg_fst]; exact ⟨hE, hC⟩
  | aiError => exact ⟨hE, hC⟩
  | aiClose =>
      simp only [step]
      rw [hE]
      exact ⟨hE, hC⟩
  | twilioMsg m =>
      cases m with
      | start d => exact ⟨hE, hC⟩
      | media p =>
          simp only [step, handleTwilioMsg]
          rw [if_neg (by rw [hE]; simp)]
          exact ⟨hE, hC⟩
      | stop =>
          simp only [step, handleTwilioMsg, closeElevenIfOpen]
          rw [if_neg (by rw [hE]; simp)]
          exact ⟨hE, hC⟩
      | other ev => exact ⟨hE, hC⟩
  | twilioClose =>
      simp only [step, closeElevenIfOpen]
      rw [if_neg (by rw [show ({ s with twilioOpen := false } : SessionState).elevenLabs
        = s.elevenLabs from rfl, hE]; simp)]
      exact ⟨hE, hC⟩

theorem closeInv_of_preInv_setup (s : SessionState) (ok : Bool) (h : PreInv s) :
    CloseInv (step s (SessionEvent.setupResult ok)).1 := by
  unfold step
  cases ok with
  | true => exact Or.inl h.2
  | false => exact Or.inl h.2

theorem run_closeInv (tr : List SessionEvent) (s : SessionState)
    (h : countSetups tr = 0) (hs : CloseInv s) : CloseInv (run s tr).1 := by
  induction tr generalizing s with
  | nil => simpa [run] using hs
  | cons e rest ih =>
      cases hse : isSetupEvent e with
      | true => simp [countSetups, List.filter_cons, hse] at h
      | false =>
          have hrest : countSetups rest = 0 := by
            simpa [countSetups, List.filter_cons, hse] using h
          simpa [run] using ih (step s e).1 hrest (closeInv_step s e hs hse)

theorem closeCount_le_one_of_closeInv (s : SessionState) (h : CloseInv s) :
    s.elevenCloseCount ≤ 1 := by
  rcases h with h0 | ⟨h1, _⟩
  · omega
  · omega

/-- Over any session trace containing at most one setup attempt (the code
invokes `setupElevenLabs` exactly once per connection), `close()` on the
ElevenLabs socket is invoked at most once. -/
theorem run_closeCount_le_one (tr : List SessionEvent) (s : SessionState)
    (h : countSetups tr ≤ 1) (hs : PreInv s) :
    (run s tr).1.elevenCloseCount ≤ 1 := by
  induction tr generalizing s with
  | nil => simpa [run] using Nat.le_of_eq hs.2 |>.trans (by omega)
  | cons e rest ih =>
      cases hse : isSetupEvent e with
      | true =>
          have hrest : countSetups rest = 0 := by
            simp [countSetups, List.filter_cons, hse] at h
            simpa [countSetups] using h
          have hinv : CloseInv (step s e).1 := by
            cases e with
            | setupResult ok => exact closeInv_of_preInv_setup s ok hs
            | aiOpen => simp [isSetupEvent] at hse
            | aiMsg m => simp [isSetupEvent] at hse
            | aiError => simp [isSetupEvent] at hse
            | aiClose => simp [isSetupEvent] at hse
            | twilioMsg m => simp [isSetupEvent] at hse
            | twilioClose => simp [isSetupEvent] at hse
          have := run_closeInv rest (step s e).1 hrest hinv
          simpa [run] using closeCount_le_one_of_closeInv _ this
      | false =>
          have hrest : countSetups rest ≤ 1 := by
            simpa [countSetups, List.filter_cons, hse] using h
          simpa [run] using ih (step s e).1 hrest (preInv_step s e hs hse)

/-! ### Claim theorems -/

/-- C1 counterexample: when the signed-endpoint fetch fails, the code only
logs from the `catch` — the Twilio connection remains open (it is not
closed, so the session does not abort to Closing/Closed). -/
theorem c1_counterexample :
    (run initialState [SessionEvent.setupResult false]).1.twilioOpen = true ∧
    (run initialState [SessionEvent.setupResult false]).1.elevenLabs = none ∧
    (run initialState [SessionEvent.setupResult false]).2 = [Effect.logSetupError] := by
  decide

/-- C1 (amended): if the AI Adapter fails to establish, the failure is
logged exactly once, the ElevenLabs socket is never created, nothing is
ever sent to the AI side, its close is never invoked and no retry occurs
within the call; but the telephony connection is not closed by the relay —
it stays open until the remote end closes it. -/
theorem c1_setup_failure_no_abort (rest : List SessionEvent)
    (h1 : rest.all (fun e => !isSetupEvent e) = true)
    (h2 : rest.all (fun e => !isAiMsgEvent e) = true) :
    ((run initialState (SessionEvent.setupResult false :: rest)).2.filter
        isSetupErrorLog).length = 1 ∧
    (run initialState (SessionEvent.setupResult false :: rest)).2.filter isToEleven = [] ∧
    (run initialState (SessionEvent.setupResult false :: rest)).1.elevenLabs = none ∧
    (run initialState (SessionEvent.setupResult false :: rest)).1.elevenCloseCount = 0 ∧
    (run initialState (SessionEvent.setupResult false :: rest)).1.twilioOpen
      = !(rest.any isTwilioCloseEvent) := by
  obtain ⟨k1, k2, k3, k4, k5⟩ := run_noSocket_inv rest initialState h1 h2 rfl
  have hstep : run initialState (SessionEvent.setupResult false :: rest)
      = ((run initialState rest).1, Effect.logSetupError :: (run initialState rest).2) := by
    simp [run, step]
  rw [hstep]
  refine ⟨?_, ?_, k1, k2, ?_⟩
  · simp [List.filter_cons, isSetupErrorLog, k4]
  · simp [List.filter_cons, isToEleven, k3]
  · simpa [initialState] using k5

/-- C1 witness for the amended theorem at a concrete trace. -/
theorem c1_setup_failure_no_abort_witness :
    ((run initialState (SessionEvent.setupResult false ::
        [SessionEvent.twilioMsg (TwilioMsg.media "QUJD"), SessionEvent.twilioClose])).2.filter
        isSetupErrorLog).length = 1 ∧
    (run initialState (SessionEvent.setupResult false ::
        [SessionEvent.twilioMsg (TwilioMsg.media "QUJD"), SessionEvent.twilioClose])).2.filter
        isToEleven = [] ∧
    (run initialState (SessionEvent.setupResult false ::
        [SessionEvent.twilioMsg (TwilioMsg.media "QUJD"), SessionEvent.twilioClose])).1.elevenLabs
        = none ∧
    (run initialState (SessionEvent.setupResult false ::
        [SessionEvent.twilioMsg (TwilioMsg.media "QUJD"),
         SessionEvent.twilioClose])).1.elevenCloseCount = 0 ∧
    (run initialState (SessionEvent.setupResult false ::
        [SessionEvent.twilioMsg (TwilioMsg.media "QUJD"), SessionEvent.twilioClose])).1.twilioOpen
      = !([SessionEvent.twilioMsg (TwilioMsg.media "QUJD"),
           SessionEvent.twilioClose].any isTwilioCloseEvent) :=
  c1_setup_failure_no_abort
    [SessionEvent.twilioMsg (TwilioMsg.media "QUJD"), SessionEvent.twilioClose]
    (by decide) (by decide)

/-- C2 counterexample: when the ElevenLabs socket closes first, its `close`
handler only logs — the Twilio connection is left open, so a session can
end with the telephony side still open. -/
theorem c2_counterexample :
    (run initialState [SessionEvent.setupResult true, SessionEvent.aiOpen,
        SessionEvent.aiClose]).1.elevenLabs = some WsReady.closed ∧
    (run initialState [SessionEvent.setupResult true, SessionEvent.aiOpen,
        SessionEvent.aiClose]).1.twilioOpen = true := by
  decide

/-- C2 (amended): counterpart closing is one-directional. A Twilio-side
close or a `stop` event leaves the ElevenLabs socket not-OPEN (closing it
if it was open), but an ElevenLabs-side close never touches the Twilio
connection and produces no frame. -/
theorem c2_one_directional_close (s : SessionState) :
    (step s SessionEvent.twilioClose).1.elevenLabs ≠ some WsReady.opened ∧
    (step s (SessionEvent.twilioMsg TwilioMsg.stop)).1.elevenLabs ≠ some WsReady.opened ∧
    (step s SessionEvent.aiClose).1.twilioOpen = s.twilioOpen ∧
    (step s SessionEvent.aiClose).2 = [] := by
  refine ⟨?_, ?_, ?_, ?_⟩
  · simp only [step, closeElevenIfOpen]
    by_cases hc : ({ s with twilioOpen := false } : SessionState).elevenLabs
        = some WsReady.opened
    · rw [if_pos hc]; simp
    · rw [if_neg hc]; exact hc
  · simp only [step, handleTwilioMsg, closeElevenIfOpen]
    by_cases hc : s.elevenLabs = some WsReady.opened
    · rw [if_pos hc]; simp
    · rw [if_neg hc]; exact hc
  · simp only [step]
    cases hs : s.elevenLabs <;> simp
  · simp only [step]
    cases hs : s.elevenLabs <;> simp

/-- C3 counterexample: processing a `start` event emits nothing — in
particular it does not begin the AI Adapter connect (that happened at
connection accept, before any event) — and if the ElevenLabs socket opens
before the `start` is processed, the handshake carries the static
defaults, not the event's prompt `"p"` and first message `"hi"`. -/
theorem c3_counterexample :
    (handleTwilioMsg (TwilioMsg.start scenarioStart) initialState).2 = [] ∧
    (run initialState [SessionEvent.setupResult true, SessionEvent.aiOpen,
        SessionEvent.twilioMsg (TwilioMsg.start scenarioStart)]).2 =
      [Effect.toEleven (ElevenFrame.initConfig
        { prompt := defaultPrompt, first_message := defaultFirstMessage })] := by
  decide

/-- C3 (amended): processing a `start` event captures the stream
identifier, call identifier and parameters into the session; the connect
is begun at session creation, and the handshake sent when the socket opens
carries the captured parameters provided the `start` was processed before
the open; for Scenario 1's parameters the handshake carries prompt `"p"`
and first message `"hi"`. -/
theorem c3_start_capture_handshake (s : SessionState) (d : StartData) :
    (handleTwilioMsg (TwilioMsg.start d) s).1.streamSid = some d.streamSid ∧
    (handleTwilioMsg (TwilioMsg.start d) s).1.callSid = some d.callSid ∧
    (handleTwilioMsg (TwilioMsg.start d) s).1.customParameters = d.customParameters ∧
    (run { s with elevenLabs := some WsReady.connecting }
        [SessionEvent.twilioMsg (TwilioMsg.start d), SessionEvent.aiOpen]).2 =
      [Effect.toEleven (ElevenFrame.initConfig (buildInitConfig d.customParameters))] ∧
    buildInitConfig (some scenarioParams) = { prompt := "p", first_message := "hi" } := by
  refine ⟨rfl, rfl, rfl, ?_, by decide⟩
  simp [run, step, handleTwilioMsg]

/-- C4 counterexample: the payload is not forwarded as an identical string
in general — the code decodes and re-encodes it, so the unpadded base64
payload `"QQ"` is sent to the AI side as `"QQ=="`. -/
theorem c4_counterexample :
    (handleTwilioMsg (TwilioMsg.media "QQ") aiOpenState).2 =
      [Effect.toEleven (ElevenFrame.userAudioChunk "QQ==")] ∧
    ("QQ==" : String) ≠ "QQ" := by
  decide

/-- C4 (amended): a `media` event while the ElevenLabs socket is OPEN
produces exactly one `user_audio_chunk` message whose payload is the
incoming payload decoded from base64 and re-encoded; that string equals
the incoming payload whenever the latter is canonical (padded) base64,
i.e. the encoding of some byte sequence. When the socket is not OPEN the
event is dropped with no state change and no buffering. -/
theorem c4_media_forwarding (s : SessionState) (bs : List Nat) (p : String)
    (hbs : ∀ b ∈ bs, b < 256) :
    (s.elevenLabs = some WsReady.opened →
      handleTwilioMsg (TwilioMsg.media (b64Encode bs)) s =
        (s, [Effect.toEleven (ElevenFrame.userAudioChunk (b64Encode bs))])) ∧
    (s.elevenLabs ≠ some WsReady.opened →
      handleTwilioMsg (TwilioMsg.media p) s = (s, [])) := by
  constructor
  · intro hopen
    simp only [handleTwilioMsg, if_pos hopen, forwardMediaPayload_canonical bs hbs]
  · intro hcl
    simp only [handleTwilioMsg, if_neg hcl]

/-- C4 witness: the bytes of `"ABC"` encode to `"QUJD"` (Scenario 2), which
is forwarded verbatim while the socket is open. -/
theorem c4_media_forwarding_witness :
    handleTwilioMsg (TwilioMsg.media (b64Encode [65, 66, 67])) aiOpenState =
      (aiOpenState,
       [Effect.toEleven (ElevenFrame.userAudioChunk (b64Encode [65, 66, 67]))]) :=
  (c4_media_forwarding aiOpenState [65, 66, 67] "QQ" (by decide)).1 rfl

/-- C5: a `ping` message with a truthy `event_id` produces exactly one
`pong` reply to the ElevenLabs side carrying the same `event_id` — it is
the only effect of that message (so nothing is forwarded to Twilio and
nothing precedes it) and the session state is unchanged. -/
theorem c5_ping_pong (s : SessionState) (pe : PingEvent) (v : JsVal)
    (hid : pe.event_id = some v) (hv : v.truthy = true) :
    handleElevenMsg (ElevenMsg.ping (some pe)) s =
      (s, [Effect.toEleven (ElevenFrame.pong v)]) := by
  simp [handleElevenMsg, hid, hv]

/-- C5 witness at a concrete ping. -/
theorem c5_ping_pong_witness :
    handleElevenMsg (ElevenMsg.ping (some { event_id := some (JsVal.num 5) }))
        initialState =
      (initialState, [Effect.toEleven (ElevenFrame.pong (JsVal.num 5))]) :=
  c5_ping_pong initialState { event_id := some (JsVal.num 5) } (JsVal.num 5) rfl
    (by decide)

/-- C6: after a valid `start` the session's stream identifier equals the
event's `streamSid`, and an ElevenLabs `audio` message carrying a chunk is
then translated into exactly one Twilio `media` frame with that stream
identifier and that chunk. -/
theorem c6_stream_id_audio (s : SessionState) (d : StartData)
    (hsid : d.streamSid ≠ "") (a : Option AudioPayload) (ae : Option AudioEventPayload)
    (p : String) (hp : audioChunkOf a ae = some p) :
    (handleTwilioMsg (TwilioMsg.start d) s).1.streamSid = some d.streamSid ∧
    handleElevenMsg (ElevenMsg.audio a ae) (handleTwilioMsg (TwilioMsg.start d) s).1 =
      ((handleTwilioMsg (TwilioMsg.start d) s).1,
       [Effect.toTwilio (TwilioFrame.media d.streamSid p)]) := by
  refine ⟨rfl, ?_⟩
  simp [handleTwilioMsg, handleElevenMsg, hsid, hp]

/-- C6 witness: Scenario 3 — audio chunk `"ZGVm"` with stream identifier
`"MZ1"` yields the media frame `{event:"media", streamSid:"MZ1",
media:{payload:"ZGVm"}}`. -/
theorem c6_stream_id_audio_witness :
    handleElevenMsg (ElevenMsg.audio (some { chunk := some "ZGVm" }) none)
        (handleTwilioMsg (TwilioMsg.start scenarioStart) initialState).1 =
      ((handleTwilioMsg (TwilioMsg.start scenarioStart) initialState).1,
       [Effect.toTwilio (TwilioFrame.media "MZ1" "ZGVm")]) :=
  (c6_stream_id_audio initialState scenarioStart (by decide)
    (some { chunk := some "ZGVm" }) none "ZGVm" (by decide)).2

/-- C7: ElevenLabs `audio` and `interruption` events arriving while the
stream identifier is still unknown are dropped: no outbound frame, state
unchanged, nothing buffered. -/
theorem c7_drop_before_stream_id (s : SessionState) (hs : s.streamSid = none)
    (a : Option AudioPayload) (ae : Option AudioEventPayload) :
    handleElevenMsg (ElevenMsg.audio a ae) s = (s, []) ∧
    handleElevenMsg ElevenMsg.interruption s = (s, []) := by
  constructor <;> simp [handleElevenMsg, hs]

/-- C7 witness at the initial session state. -/
theorem c7_drop_before_stream_id_witness :
    handleElevenMsg (ElevenMsg.audio (some { chunk := some "ZGVm" }) none)
        initialState = (initialState, []) ∧
    handleElevenMsg ElevenMsg.interruption initialState = (initialState, []) :=
  c7_drop_before_stream_id initialState rfl (some { chunk := some "ZGVm" }) none

/-- C8: a second `stop` right after one was handled changes nothing and
emits nothing (`readyState` is no longer OPEN, so the guard fails), and
over any whole-session trace with a single setup — the code calls
`setupElevenLabs` exactly once per connection — `close()` on the
ElevenLabs socket is invoked at most once. -/
theorem c8_stop_idempotent_close_once (s0 : SessionState) (tr : List SessionEvent)
    (h : countSetups tr ≤ 1) :
    (handleTwilioMsg TwilioMsg.stop (handleTwilioMsg TwilioMsg.stop s0).1).1 =
        (handleTwilioMsg TwilioMsg.stop s0).1 ∧
    (handleTwilioMsg TwilioMsg.stop (handleTwilioMsg TwilioMsg.stop s0).1).2 = [] ∧
    (run initialState tr).1.elevenCloseCount ≤ 1 := by
  refine ⟨?_, rfl, run_closeCount_le_one tr initialState h ⟨rfl, rfl⟩⟩
  show closeElevenIfOpen (closeElevenIfOpen s0) = closeElevenIfOpen s0
  unfold closeElevenIfOpen
  by_cases hc : s0.elevenLabs = some WsReady.opened
  · rw [if_pos hc, if_neg (by simp)]
  · rw [if_neg hc, if_neg hc]

/-- C8 witness at an open socket and a concrete full-session trace. -/
theorem c8_stop_idempotent_close_once_witness :
    (handleTwilioMsg TwilioMsg.stop (handleTwilioMsg TwilioMsg.stop aiOpenState).1).1 =
        (handleTwilioMsg TwilioMsg.stop aiOpenState).1 ∧
    (handleTwilioMsg TwilioMsg.stop (handleTwilioMsg TwilioMsg.stop aiOpenState).1).2 = [] ∧
    (run initialState [SessionEvent.setupResult true, SessionEvent.aiOpen,
        SessionEvent.twilioMsg TwilioMsg.stop, SessionEvent.twilioClose,
        SessionEvent.aiClose]).1.elevenCloseCount ≤ 1 :=
  c8_stop_idempotent_close_once aiOpenState
    [SessionEvent.setupResult true, SessionEvent.aiOpen,
     SessionEvent.twilioMsg TwilioMsg.stop, SessionEvent.twilioClose,
     SessionEvent.aiClose] (by decide)

/-- C9: the wait for the first AI audio response is bounded by the
10000 ms `setTimeout`; if nothing settles the promise before that
deadline, the timeout path closes the AI socket and the rejection is
answered with the spoken-error-then-hangup TwiML rather than a crash. -/
theorem c9_speech_timeout (timeline : List (Nat × WsHappening))
    (h : ∀ th ∈ timeline, th.1 < conversationTimeoutMs → settlesWith th.2 = none) :
    conversationTimeoutMs = 10000 ∧
    processSpeech timeline =
      { aiSocketClosed := true, saidError := true, hangup := true,
        playedAudio := none } := by
  refine ⟨rfl, ?_⟩
  unfold processSpeech
  have key : settleBefore conversationTimeoutMs timeline = SpeechOutcome.timeoutFired := by
    induction timeline with
    | nil => rfl
    | cons th rest ih =>
        obtain ⟨t, hap⟩ := th
        simp only [settleBefore]
        by_cases ht : t < conversationTimeoutMs
        · rw [if_pos ht]
          have hset : settlesWith hap = none := h (t, hap) (by simp) ht
          rw [hset]
          exact ih (fun x hx hlt => h x (by simp [hx]) hlt)
        · rw [if_neg ht]
  rw [key]
  rfl

/-- C9 witness: a non-settling message at 3 ms and a first audio response
arriving only at 12000 ms still end in the error path. -/
theorem c9_speech_timeout_witness :
    conversationTimeoutMs = 10000 ∧
    processSpeech [(3, WsHappening.otherMessage),
        (12000, WsHappening.audioMessage (some { chunk := some "xyz" }) none)] =
      { aiSocketClosed := true, saidError := true, hangup := true,
        playedAudio := none } :=
  c9_speech_timeout
    [(3, WsHappening.otherMessage),
     (12000, WsHappening.audioMessage (some { chunk := some "xyz" }) none)]
    (by decide)

/-- C10: a `ping` whose `event_id` is absent or falsy (`0`, `""`) produces
no pong and no other frame, and leaves the session state unchanged. -/
theorem c10_falsy_ping_no_pong (s : SessionState) (pe : Option PingEvent)
    (h : ∀ v, pe.bind (fun p => p.event_id) = some v → v.truthy = false) :
    handleElevenMsg (ElevenMsg.ping pe) s = (s, []) := by
  simp only [handleElevenMsg]
  cases hp : pe.bind (fun p => p.event_id) with
  | none => rfl
  | some v => simp [h v hp]

/-- C10 witness at `event_id = 0`. -/
theorem c10_falsy_ping_no_pong_witness :
    handleElevenMsg (ElevenMsg.ping (some { event_id := some (JsVal.num 0) }))
        initialState = (initialState, []) :=
  c10_falsy_ping_no_pong initialState (some { event_id := some (JsVal.num 0) })
    (fun v hv => by cases hv; rfl)

end Outbound
